import Mathlib

set_option maxHeartbeats 1000000

/-!
Verification of the WhisperX transcription service (handler_pod.py,
handler.py, transcribe.py): a shallow embedding of the job registry, the
background job runner, the synchronous endpoint and the extension/speaker
helpers, together with theorems settling the specification claims.

Strings that the code only stores and forwards are kept as `String`;
strings that the code inspects character by character (URLs, timestamps)
are manipulated through their `List Char` representation so that every
definition evaluates by kernel reduction.  Machine floats of the source
are modelled as rationals; `round(x, 2)` is modelled by `round2`.
-/

namespace WX

/-! ### Job data model (handler_pod.py lines 132-164) -/

/-- Job status values used by handler_pod.py (line 136). -/
inductive Status where
  | queued
  | downloading
  | processing
  | uploading
  | completed
  | failed
deriving DecidableEq, Repr

/-- Terminal statuses: the tuple ("completed", "failed") of line 187. -/
def isTerminal : Status → Bool
  | Status.completed => true
  | Status.failed => true
  | _ => false

/-- The Job dataclass (handler_pod.py lines 132-147), with its field
defaults. -/
structure Job where
  job_id : String
  status : Status := Status.queued
  progress : Nat := 0
  message : String := ""
  error : Option String := none
  started_at : Option String := none
  completed_at : Option String := none
  failed_at : Option String := none
  segments_count : Nat := 0
  speakers_count : Nat := 0
  duration_seconds : ℚ := 0
  processing_time_seconds : ℚ := 0
deriving DecidableEq, Repr

/-- create_job (handler_pod.py lines 158-164): a fresh record with status
queued and default fields. -/
def create_job (job_id : String) : Job := { job_id := job_id }

/-- TranscribeRequest (handler_pod.py lines 262-271) with its pydantic
defaults. -/
structure TranscribeRequest where
  audio_base64 : Option String := none
  audio_url : Option String := none
  result_url : Option String := none
  language : Option String := none
  diarize : Bool := true
  min_speakers : Option Nat := none
  max_speakers : Option Nat := none
  async_mode : Bool := true
deriving DecidableEq, Repr

/-- Python truthiness of an optional string: None and the empty string are
falsy, a non-empty string is truthy. -/
def pyTruthy : Option String → Bool
  | none => false
  | some s => !(decide (s = ("")))

/-- Python `a or b` on optional strings (used at handler_pod.py line 188). -/
def pyOr (a b : Option String) : Option String :=
  if pyTruthy a then a else b

/-! ### Transcription result data model (transcribe.py) -/

/-- A word entry of an aligned segment; diarization may attach a
"speaker" key. -/
structure AlignedWord where
  word : String := ""
  start : ℚ := 0
  end_ : ℚ := 0
  speaker : Option String := none
deriving DecidableEq, Repr

/-- A transcription segment; diarization may attach a "speaker" key, and
alignment attaches a word list. -/
structure Segment where
  start : ℚ := 0
  end_ : ℚ := 0
  text : String := ""
  speaker : Option String := none
  words : List AlignedWord := []
deriving DecidableEq, Repr

/-- The result dict built by WhisperXTranscriber.transcribe
(transcribe.py lines 205-213): a "speakers" key is present only when
diarization produced a non-empty list, and the handlers later add a
"processing_time_seconds" key. -/
structure TranscriptionResult where
  segments : List Segment := []
  language : String := ""
  speakers : Option (List String) := none
  processing_time_seconds : Option ℚ := none
deriving DecidableEq, Repr

/-! ### Numeric and HTTP helpers -/

/-- Python `round(x, 2)`: round to two decimal places.  Python rounds
half-to-even on floats; Mathlib `round` rounds half-up — the two agree at
every non-tie argument, which is all the development evaluates. -/
def round2 (q : ℚ) : ℚ := (round (q * 100) : ℤ) / 100

/-- requests.Response.raise_for_status: raises HTTPError exactly for 4xx
and 5xx status codes; 1xx, 2xx and 3xx responses pass silently. -/
def raise_for_status (status_code : Nat) : Except String Unit :=
  if 400 ≤ status_code ∧ status_code < 600 then
    Except.error (("HTTP Error ") ++ toString status_code)
  else Except.ok ()

/-- The duration computation `segments[-1]["end"] if segments else 0` of
handler_pod.py lines 384 and 632. -/
def durationOf (segments : List Segment) : ℚ :=
  match segments.getLast? with
  | some sg => sg.end_
  | none => 0

/-! ### Extension inference (handler_pod.py 312-318 and 575-581,
handler.py 157-164) -/

/-- Lowercase a character list, modelling str.lower(). -/
def lowerStr (s : List Char) : List Char := s.map Char.toLower

/-- Everything before the first '?', modelling url.split("?")[0]. -/
def stripQuery : List Char → List Char
  | [] => []
  | c :: rest => if c = '?' then [] else c :: stripQuery rest

/-- str.endswith on character lists. -/
def endsWithL (s suf : List Char) : Bool :=
  List.isPrefixOf suf.reverse s.reverse

/-- Python `pat in s` substring containment on character lists. -/
def containsSub (s pat : List Char) : Bool :=
  s.tails.any (fun t => List.isPrefixOf pat t)

/-- The extension allow-list of handler_pod.py lines 315 and 578. -/
def podExtAllowList : List (List Char) :=
  [(".mp3").data, (".wav").data, (".m4a").data, (".flac").data,
   (".ogg").data, (".opus").data, (".webm").data]

/-- The extension list of handler.py line 161 — no ".webm". -/
def servExtAllowList : List (List Char) :=
  [(".mp3").data, (".wav").data, (".m4a").data, (".flac").data,
   (".ogg").data, (".opus").data]

/-- Extension inference of the pod handler (handler_pod.py 312-318, async
path, and 575-581, sync path — the two snippets are identical): drop the
query string, lowercase, then take the first allow-listed extension the
remaining path ends with, defaulting to ".wav". -/
def infer_ext_pod (audio_url : List Char) : List Char :=
  let url_path := lowerStr (stripQuery audio_url)
  match podExtAllowList.find? (fun e => endsWithL url_path e) with
  | some e => e
  | none => (".wav").data

/-- Extension inference of the serverless handler (handler.py 157-164):
take the first listed extension occurring as a substring anywhere in the
lowercased URL — the query string included — defaulting to ".wav". -/
def infer_ext_serverless (audio_url : List Char) : List Char :=
  let url_lower := lowerStr audio_url
  match servExtAllowList.find? (fun e => containsSub url_lower e) with
  | some e => e
  | none => (".wav").data

/-- The inference procedure exactly as the claim words it: strip any query
string from the URL, then match its suffix against the fixed allow-list
(".mp3", ".wav", ".m4a", ".flac", ".ogg", ".opus", ".webm"), defaulting to
".wav" when none match (suffix matching is case-insensitive, as extensions
are conventionally compared). -/
def claimInferExt (audio_url : List Char) : List Char :=
  let path := lowerStr (stripQuery audio_url)
  match podExtAllowList.find? (fun e => endsWithL path e) with
  | some e => e
  | none => (".wav").data

/-! ### Speaker extraction (transcribe.py 215-225) -/

/-- All speaker labels occurring in segments or their words, in
encounter order (the elements added to the Python set). -/
def speakerLabels (segments : List Segment) : List String :=
  segments.foldl (fun acc segment =>
    let acc2 := match segment.speaker with
      | some s => acc ++ [s]
      | none => acc
    segment.words.foldl (fun acc3 w =>
      match w.speaker with
      | some s => acc3 ++ [s]
      | none => acc3) acc2) []

/-- _extract_speakers (transcribe.py 215-225): `sorted(list(speakers))`
where `speakers` is the set of labels collected from segments and their
words. -/
def _extract_speakers (segments : List Segment) : List String :=
  ((speakerLabels segments).dedup).mergeSort

/-- Steps 4-5 of WhisperXTranscriber.transcribe (transcribe.py 182-213):
when diarization ran successfully the extracted speaker list is attached
to the output, and only when non-empty (`if speakers:`). -/
def transcribeOutput (diarizeRan : Bool) (segments : List Segment)
    (language : String) : TranscriptionResult :=
  let speakers := if diarizeRan then _extract_speakers segments else []
  { segments := segments, language := language,
    speakers := if speakers.isEmpty then none else some speakers }

/-! ### Job registry and eviction (handler_pod.py 150-202, 482-514) -/

/-- Python str.rstrip("Z"): drop every trailing 'Z'. -/
def rstripZ (s : String) : String :=
  String.mk ((s.data.reverse.dropWhile (fun c => c = 'Z')).reverse)

/-- JOB_RETENTION_SECONDS (handler_pod.py line 155): one hour. -/
def JOB_RETENTION_SECONDS : ℚ := 3600

/-- The eviction test of cleanup_old_jobs (handler_pod.py 186-196) for a
single record.  `fromisoformat` models datetime.fromisoformat as a map to
a timestamp in seconds, `none` modelling a ValueError; `now` models
datetime.utcnow() in the same timescale. -/
def shouldEvict (fromisoformat : String → Option ℚ) (now : ℚ) (j : Job) :
    Bool :=
  isTerminal j.status &&
    (let completed := pyOr j.completed_at j.failed_at
     pyTruthy completed &&
       (match completed with
        | some ts =>
          match fromisoformat (rstripZ ts) with
          | some dt => decide (now - dt > JOB_RETENTION_SECONDS)
          | none => false
        | none => false))

/-- cleanup_old_jobs (handler_pod.py 181-202): delete every record whose
eviction test holds; the registry dict is modelled as an association
list. -/
def cleanup_old_jobs (fromisoformat : String → Option ℚ) (now : ℚ)
    (jobs : List (String × Job)) : List (String × Job) :=
  jobs.filter (fun p => !(shouldEvict fromisoformat now p.2))

/-- Dict lookup on the registry. -/
def lookupJob (jobs : List (String × Job)) (job_id : String) :
    Option Job :=
  (jobs.find? (fun p => p.1 == job_id)).map (fun p => p.2)

/-- The JobStatusResponse model (handler_pod.py 274-287): the four summary
fields are optional and attached only for completed jobs (508-512). -/
structure JobStatusResponse where
  job_id : String
  status : Status
  progress : Nat := 0
  message : String := ""
  error : Option String := none
  started_at : Option String := none
  completed_at : Option String := none
  failed_at : Option String := none
  segments_count : Option Nat := none
  speakers_count : Option Nat := none
  duration_seconds : Option ℚ := none
  processing_time_seconds : Option ℚ := none
deriving DecidableEq, Repr

/-- Outcome of a status read. -/
inductive StatusReadResult where
  | notFound (code : Nat) (detail : String)
  | ok (resp : JobStatusResponse)
deriving DecidableEq, Repr

/-- GET /status/job_id (handler_pod.py 482-514): run eviction first, then
look the job up in the evicted registry; unknown ids give a 404.  Returns
the updated registry together with the response. -/
def get_status (fromisoformat : String → Option ℚ) (now : ℚ)
    (jobs : List (String × Job)) (job_id : String) :
    List (String × Job) × StatusReadResult :=
  let jobs2 := cleanup_old_jobs fromisoformat now jobs
  match lookupJob jobs2 job_id with
  | none =>
    (jobs2, StatusReadResult.notFound 404
      ((("Job ") ++ job_id) ++ (" not found")))
  | some job =>
    let base : JobStatusResponse :=
      { job_id := job.job_id, status := job.status,
        progress := job.progress, message := job.message,
        error := job.error, started_at := job.started_at,
        completed_at := job.completed_at, failed_at := job.failed_at }
    let resp := if job.status = Status.completed then
        { base with segments_count := some job.segments_count,
                    speakers_count := some job.speakers_count,
                    duration_seconds := some job.duration_seconds,
                    processing_time_seconds :=
                      some job.processing_time_seconds }
      else base
    (jobs2, StatusReadResult.ok resp)

/-! ### The background job runner (handler_pod.py 298-408) -/

/-- Outcomes of the external effects a run performs.  Each fallible
operation of the pipeline is modelled by its result: base64 decoding
(binascii error as `Except.error`), the audio GET (transport failure as
`Except.error`, otherwise the HTTP status code), the Transcriber call, and
the result PUT (same shape as the GET).  `elapsed` and `totalElapsed`
model the wall-clock differences measured by time.time(), `now1`/`now2`
the datetime.utcnow().isoformat() strings taken at start and at
termination. -/
structure Env where
  b64decode : String → Except String (List Nat)
  downloadOutcome : Except String Nat
  downloadBytes : List Nat := []
  transcribeRun : Except String TranscriptionResult
  uploadOutcome : Except String Nat
  elapsed : ℚ := 0
  totalElapsed : ℚ := 0
  now1 : String := ""
  now2 : String := ""

/-- A PUT issued to a result_url: requests.put(url, data=json.dumps(body),
headers with the given content type); `body` is the structured value whose
JSON serialization is sent. -/
structure UploadCall where
  url : String
  body : TranscriptionResult
  contentType : String
deriving DecidableEq, Repr

/-- Observable state of one background run: the job record as maintained
through update_job, the sequence of status values the record has held, and
the file-system / network effects performed. -/
structure RunState where
  job : Job
  statusTrace : List Status
  tempCreated : Bool := false
  tempExt : List Char := []
  tempDeleted : Bool := false
  gcCalled : Bool := false
  fileBytes : Option (List Nat) := none
  wroteFromBase64 : Bool := false
  downloadAttempted : Bool := false
  uploadCalls : List UploadCall := []
deriving DecidableEq, Repr

/-- update_job with a status keyword: the status change is appended to the
observed status sequence. -/
def setStatus (s : RunState) (st : Status) (f : Job → Job) : RunState :=
  { s with job := f { s.job with status := st },
           statusTrace := s.statusTrace ++ [st] }

/-- update_job without a status keyword. -/
def updJob (s : RunState) (f : Job → Job) : RunState :=
  { s with job := f s.job }

/-- Lines 303-321 of handler_pod.py: the first registry update
(downloading, started_at) and the creation of the scoped temporary file
with the inferred extension. -/
def runnerStart (env : Env) (req : TranscribeRequest) (job : Job) :
    RunState :=
  let s0 : RunState := { job := job, statusTrace := [job.status] }
  let s1 := setStatus s0 Status.downloading (fun j =>
    { j with message := ("Downloading audio from S3..."),
             started_at := some (env.now1 ++ ("Z")) })
  let ext := if pyTruthy req.audio_url then
      infer_ext_pod ((req.audio_url.getD ("")).data)
    else (".wav").data
  { s1 with tempCreated := true, tempExt := ext }

/-- Lines 324-340 of handler_pod.py: write the audio into the temporary
file, either by decoding the inline payload or by a streamed GET of the
URL followed by raise_for_status. -/
def acquireAudio (env : Env) (req : TranscribeRequest) (s : RunState) :
    RunState × Except String Unit :=
  if pyTruthy req.audio_base64 then
    match env.b64decode (req.audio_base64.getD ("")) with
    | Except.error e => (s, Except.error e)
    | Except.ok bytes =>
      let s2 := { s with fileBytes := some bytes, wroteFromBase64 := true }
      let s3 := updJob s2 (fun j =>
        { j with progress := 10, message := ("Audio decoded") })
      (s3, Except.ok ())
  else
    let s2 := { s with downloadAttempted := true }
    match env.downloadOutcome with
    | Except.error e => (s2, Except.error e)
    | Except.ok code =>
      match raise_for_status code with
      | Except.error e => (s2, Except.error e)
      | Except.ok _ =>
        ({ s2 with fileBytes := some env.downloadBytes }, Except.ok ())

/-- Lines 324-396 of handler_pod.py: the body of the inner try block —
acquisition, transcription, optional upload, and the completed update.
The second component is the exception state the block finishes with. -/
def runnerInner (env : Env) (req : TranscribeRequest) (s : RunState) :
    RunState × Except String Unit :=
  match acquireAudio env req s with
  | (s2, Except.error e) => (s2, Except.error e)
  | (s2, Except.ok _) =>
    let s3 := setStatus s2 Status.processing (fun j =>
      { j with progress := 15, message := ("Transcribing audio...") })
    match env.transcribeRun with
    | Except.error e => (s3, Except.error e)
    | Except.ok result0 =>
      let result := { result0 with
        processing_time_seconds := some (round2 env.elapsed) }
      let afterUpload : RunState × Except String Unit :=
        if pyTruthy req.result_url then
          let s4 := setStatus s3 Status.uploading (fun j =>
            { j with progress := 90,
                     message := ("Uploading result to S3...") })
          let s5 := { s4 with uploadCalls := s4.uploadCalls ++
            [{ url := req.result_url.getD (""), body := result,
               contentType := ("application/json") }] }
          match env.uploadOutcome with
          | Except.error e => (s5, Except.error e)
          | Except.ok code =>
            match raise_for_status code with
            | Except.error e => (s5, Except.error e)
            | Except.ok _ => (s5, Except.ok ())
        else (s3, Except.ok ())
      match afterUpload with
      | (s6, Except.error e) => (s6, Except.error e)
      | (s6, Except.ok _) =>
        let segments := result.segments
        let speakers := result.speakers.getD []
        let duration : ℚ := durationOf segments
        let s7 := setStatus s6 Status.completed (fun j =>
          { j with progress := 100,
                   message := ("Transcription complete") ++
                     (if pyTruthy req.result_url then
                       (" and uploaded to S3") else ("")),
                   completed_at := some (env.now2 ++ ("Z")),
                   segments_count := segments.length,
                   speakers_count := speakers.length,
                   duration_seconds := round2 duration,
                   processing_time_seconds := round2 env.elapsed })
        (s7, Except.ok ())

/-- process_transcription_async (handler_pod.py 301-408): run the inner
body, then the finally block (temp file deletion and gc.collect), then the
except handler turning any captured exception into a failed update. -/
def process_transcription_async (env : Env) (req : TranscribeRequest)
    (job : Job) : RunState :=
  match runnerInner env req (runnerStart env req job) with
  | (s, r) =>
    let s2 := { s with tempDeleted := true, gcCalled := true }
    match r with
    | Except.ok _ => s2
    | Except.error e =>
      setStatus s2 Status.failed (fun j =>
        { j with error := some e,
                 failed_at := some (env.now2 ++ ("Z")) })

/-! ### The POST /transcribe endpoint (handler_pod.py 517-681) -/

/-- Exceptions distinguished by the endpoint's handlers: fastapi
HTTPException, requests.exceptions.RequestException, and anything else. -/
inductive PyExn where
  | httpExn (code : Nat) (detail : String)
  | requestExn (msg : String)
  | otherExn (msg : String)
deriving DecidableEq, Repr

/-- The response returned by POST /transcribe. -/
inductive SyncResponse where
  | httpError (code : Nat) (detail : String)
  | asyncAccepted (job_id : String) (status : String) (message : String)
  | summary (status : String) (message : String) (segments_count : Nat)
      (speakers_count : Nat) (duration_seconds : ℚ)
      (processing_time_seconds : ℚ) (total_time_seconds : ℚ)
  | fullResult (r : TranscriptionResult)
deriving DecidableEq, Repr

/-- Effects of one synchronous run. -/
structure SyncFlags where
  fileBytes : Option (List Nat) := none
  wroteFromBase64 : Bool := false
  downloadAttempted : Bool := false
  uploadCalls : List UploadCall := []
deriving DecidableEq, Repr

/-- Lines 586-667 of handler_pod.py: the body of the sync-mode inner try —
acquisition (with the download errors wrapped into an HTTPException 502),
transcription, then either upload-and-summary or the full result. -/
def syncInner (env : Env) (req : TranscribeRequest) :
    SyncFlags × Except PyExn SyncResponse :=
  let acq : SyncFlags × Except PyExn Unit :=
    if pyTruthy req.audio_base64 then
      match env.b64decode (req.audio_base64.getD ("")) with
      | Except.error e => ({}, Except.error (PyExn.otherExn e))
      | Except.ok bytes =>
        ({ fileBytes := some bytes, wroteFromBase64 := true },
         Except.ok ())
    else
      let fl : SyncFlags := { downloadAttempted := true }
      match env.downloadOutcome with
      | Except.error e =>
        (fl, Except.error (PyExn.httpExn 502
          (("Failed to download audio: ") ++ e)))
      | Except.ok code =>
        match raise_for_status code with
        | Except.error e =>
          (fl, Except.error (PyExn.httpExn 502
            (("Failed to download audio: ") ++ e)))
        | Except.ok _ =>
          ({ fl with fileBytes := some env.downloadBytes }, Except.ok ())
  match acq with
  | (fl, Except.error e) => (fl, Except.error e)
  | (fl, Except.ok _) =>
    match env.transcribeRun with
    | Except.error e => (fl, Except.error (PyExn.otherExn e))
    | Except.ok result0 =>
      let result := { result0 with
        processing_time_seconds := some (round2 env.elapsed) }
      let segments := result.segments
      let speakers := result.speakers.getD []
      let duration : ℚ := durationOf segments
      if pyTruthy req.result_url then
        let fl2 := { fl with uploadCalls := fl.uploadCalls ++
          [{ url := req.result_url.getD (""), body := result,
             contentType := ("application/json") }] }
        match env.uploadOutcome with
        | Except.error e => (fl2, Except.error (PyExn.requestExn e))
        | Except.ok code =>
          match raise_for_status code with
          | Except.error e => (fl2, Except.error (PyExn.requestExn e))
          | Except.ok _ =>
            (fl2, Except.ok (SyncResponse.summary ("ok")
              ("Transcription uploaded to S3") segments.length
              speakers.length (round2 duration) (round2 env.elapsed)
              (round2 env.totalElapsed)))
      else (fl, Except.ok (SyncResponse.fullResult result))

/-- Observable outcome of one POST /transcribe call. -/
structure SyncOut where
  response : SyncResponse
  jobCreated : Bool := false
  spawnedRunner : Bool := false
  tempCreated : Bool := false
  tempDeleted : Bool := false
  gcCalled : Bool := false
  fileBytes : Option (List Nat) := none
  wroteFromBase64 : Bool := false
  downloadAttempted : Bool := false
  uploadCalls : List UploadCall := []
deriving DecidableEq, Repr

/-- POST /transcribe (handler_pod.py 517-681).  Validation rejects a
request with no truthy audio source with a 400 before any job exists;
async mode creates a job and schedules the background runner, returning
immediately; sync mode runs the pipeline inline with the finally-block
cleanup, mapping HTTPException through unchanged, RequestException to a
502, and anything else to a 500.  `new_job_id` stands for the uuid drawn
by create_job. -/
def transcribe (env : Env) (req : TranscribeRequest)
    (new_job_id : String) : SyncOut :=
  if !(pyTruthy req.audio_base64) && !(pyTruthy req.audio_url) then
    { response := SyncResponse.httpError 400
        ("Must provide audio_base64 or audio_url") }
  else if req.async_mode then
    { response := SyncResponse.asyncAccepted new_job_id ("queued")
        ("Job queued for processing. Poll /status/\x7bjob_id\x7d for progress."),
      jobCreated := true, spawnedRunner := true }
  else
    match syncInner env req with
    | (fl, r) =>
      let resp := match r with
        | Except.ok resp => resp
        | Except.error (PyExn.httpExn code detail) =>
          SyncResponse.httpError code detail
        | Except.error (PyExn.requestExn e) =>
          SyncResponse.httpError 502 (("HTTP error: ") ++ e)
        | Except.error (PyExn.otherExn e) =>
          SyncResponse.httpError 500 e
      { response := resp, tempCreated := true, tempDeleted := true,
        gcCalled := true, fileBytes := fl.fileBytes,
        wroteFromBase64 := fl.wroteFromBase64,
        downloadAttempted := fl.downloadAttempted,
        uploadCalls := fl.uploadCalls }

/-! ### The state machine of the async path (spec section 4.5) -/

/-- The directed edges of the job state machine: forward edges
queued → downloading → processing → (uploading) → completed, and an edge
to failed from every non-terminal state. -/
def allowedEdge : Status → Status → Bool
  | Status.queued, Status.downloading => true
  | Status.downloading, Status.processing => true
  | Status.processing, Status.uploading => true
  | Status.processing, Status.completed => true
  | Status.uploading, Status.completed => true
  | Status.queued, Status.failed => true
  | Status.downloading, Status.failed => true
  | Status.processing, Status.failed => true
  | Status.uploading, Status.failed => true
  | _, _ => false

/-- All consecutive pairs of a status sequence are allowed edges. -/
def chainOK : List Status → Bool
  | [] => true
  | [_] => true
  | a :: b :: rest => allowedEdge a b && chainOK (b :: rest)

/-- No terminal status is followed by anything in the sequence. -/
def noEarlyTerminal : List Status → Bool
  | [] => true
  | [_] => true
  | a :: rest => !(isTerminal a) && noEarlyTerminal rest

/-- The status history of one background run started on a fresh job. -/
def runnerTrace (env : Env) (req : TranscribeRequest) (id : String) :
    List Status :=
  (process_transcription_async env req (create_job id)).statusTrace

/-! ### Helper lemmas about the runner -/

theorem acquire_trace (env : Env) (req : TranscribeRequest) (s : RunState) :
    (acquireAudio env req s).1.statusTrace = s.statusTrace := by
  unfold acquireAudio updJob
  cases hb : pyTruthy req.audio_base64
  · rcases hd : env.downloadOutcome with e | code
    · simp [hb, hd]
    · rcases hrs : raise_for_status code with e | u <;> simp [hb, hd, hrs]
  · rcases hdec : env.b64decode (req.audio_base64.getD ("")) with e | bytes <;>
      simp [hb, hdec]

theorem runner_trace_mem (env : Env) (req : TranscribeRequest) (s : RunState) :
    ((runnerInner env req s).1.statusTrace = s.statusTrace ∧
      (∃ e, (runnerInner env req s).2 = Except.error e)) ∨
    ((runnerInner env req s).1.statusTrace =
        s.statusTrace ++ [Status.processing] ∧
      (∃ e, (runnerInner env req s).2 = Except.error e)) ∨
    ((runnerInner env req s).1.statusTrace =
        s.statusTrace ++ [Status.processing, Status.uploading] ∧
      (∃ e, (runnerInner env req s).2 = Except.error e)) ∨
    ((runnerInner env req s).1.statusTrace =
        s.statusTrace ++ [Status.processing, Status.completed] ∧
      (runnerInner env req s).2 = Except.ok ()) ∨
    ((runnerInner env req s).1.statusTrace =
        s.statusTrace ++ [Status.processing, Status.uploading,
          Status.completed] ∧
      (runnerInner env req s).2 = Except.ok ()) := by
  have hacqt := acquire_trace env req s
  unfold runnerInner
  rcases hacq : acquireAudio env req s with ⟨s2, r⟩
  rw [hacq] at hacqt
  simp only at hacqt
  cases r with
  | error e => simp [hacq, hacqt]
  | ok u =>
    rcases htr : env.transcribeRun with e | result0
    · simp [hacq, htr, setStatus, hacqt]
    · cases hru : pyTruthy req.result_url
      · simp [hacq, htr, hru, setStatus, hacqt]
      · rcases hup : env.uploadOutcome with e | code
        · simp [hacq, htr, hru, hup, setStatus, hacqt]
        · rcases hrs : raise_for_status code with e | u2 <;>
            simp [hacq, htr, hru, hup, hrs, setStatus, hacqt]

theorem runner_trace_concrete (env : Env) (req : TranscribeRequest)
    (id : String) :
    runnerTrace env req id =
      [Status.queued, Status.downloading, Status.failed] ∨
    runnerTrace env req id =
      [Status.queued, Status.downloading, Status.processing,
       Status.failed] ∨
    runnerTrace env req id =
      [Status.queued, Status.downloading, Status.processing,
       Status.uploading, Status.failed] ∨
    runnerTrace env req id =
      [Status.queued, Status.downloading, Status.processing,
       Status.completed] ∨
    runnerTrace env req id =
      [Status.queued, Status.downloading, Status.processing,
       Status.uploading, Status.completed] := by
  have h5 := runner_trace_mem env req (runnerStart env req (create_job id))
  have hs : (runnerStart env req (create_job id)).statusTrace =
      [Status.queued, Status.downloading] := rfl
  unfold runnerTrace process_transcription_async
  rcases hI : runnerInner env req (runnerStart env req (create_job id))
    with ⟨s, r⟩
  rw [hI] at h5
  simp only [hs] at h5
  rcases h5 with ⟨ht, e, he⟩ | ⟨ht, e, he⟩ | ⟨ht, e, he⟩ | ⟨ht, he⟩ |
    ⟨ht, he⟩ <;> subst he <;> simp [setStatus, ht]

theorem acquire_uploadCalls (env : Env) (req : TranscribeRequest)
    (s : RunState) :
    (acquireAudio env req s).1.uploadCalls = s.uploadCalls := by
  unfold acquireAudio updJob
  cases hb : pyTruthy req.audio_base64
  · rcases hd : env.downloadOutcome with e | code
    · simp [hb, hd]
    · rcases hrs : raise_for_status code with e | u <;> simp [hb, hd, hrs]
  · rcases hdec : env.b64decode (req.audio_base64.getD ("")) with e | bytes <;>
      simp [hb, hdec]

theorem runnerInner_ok_spec (env : Env) (req : TranscribeRequest)
    (s : RunState) (r0 : TranscriptionResult)
    (htr : env.transcribeRun = Except.ok r0)
    (hok : (runnerInner env req s).2 = Except.ok ()) :
    (runnerInner env req s).1.job.status = Status.completed ∧
    (runnerInner env req s).1.job.duration_seconds =
      round2 (durationOf r0.segments) ∧
    (runnerInner env req s).1.job.segments_count = r0.segments.length ∧
    (runnerInner env req s).1.job.speakers_count =
      (r0.speakers.getD []).length ∧
    (runnerInner env req s).1.job.completed_at =
      some (env.now2 ++ ("Z")) ∧
    (runnerInner env req s).1.job.processing_time_seconds =
      round2 env.elapsed ∧
    (pyTruthy req.result_url = true →
      (runnerInner env req s).1.uploadCalls = s.uploadCalls ++
        [{ url := req.result_url.getD (""),
           body := { r0 with
             processing_time_seconds := some (round2 env.elapsed) },
           contentType := ("application/json") }]) ∧
    (pyTruthy req.result_url = false →
      (runnerInner env req s).1.uploadCalls = s.uploadCalls) := by
  have hcalls := acquire_uploadCalls env req s
  unfold runnerInner at hok ⊢
  rcases hacq : acquireAudio env req s with ⟨s2, r⟩
  rw [hacq] at hok hcalls
  simp only at hcalls
  cases r with
  | error e => simp [hacq] at hok
  | ok u =>
    cases hru : pyTruthy req.result_url
    · simp [hacq, htr, hru, setStatus, hcalls]
    · rcases hup : env.uploadOutcome with e | code
      · simp [hacq, htr, hru, hup] at hok
      · rcases hrs : raise_for_status code with e | u2
        · simp [hacq, htr, hru, hup, hrs] at hok
        · simp [hacq, htr, hru, hup, hrs, setStatus, hcalls]

theorem runnerInner_ok_transcribe (env : Env) (req : TranscribeRequest)
    (s : RunState) (hok : (runnerInner env req s).2 = Except.ok ()) :
    ∃ r0, env.transcribeRun = Except.ok r0 := by
  unfold runnerInner at hok
  rcases hacq : acquireAudio env req s with ⟨s2, r⟩
  rw [hacq] at hok
  cases r with
  | error e => simp at hok
  | ok u =>
    rcases htr : env.transcribeRun with e | r0
    · simp [htr] at hok
    · exact ⟨r0, rfl⟩

theorem runnerInner_upload_4xx (env : Env) (req : TranscribeRequest)
    (s : RunState) (code : Nat) (hru : pyTruthy req.result_url = true)
    (hup : env.uploadOutcome = Except.ok code) (h4 : 400 ≤ code)
    (h6 : code < 600) : (runnerInner env req s).2 ≠ Except.ok () := by
  intro hok
  have hrs : raise_for_status code =
      Except.error (("HTTP Error ") ++ toString code) := by
    simp [raise_for_status, h4, h6]
  unfold runnerInner at hok
  rcases hacq : acquireAudio env req s with ⟨s2, r⟩
  rw [hacq] at hok
  cases r with
  | error e => simp at hok
  | ok u =>
    rcases htr : env.transcribeRun with e | r0
    · simp [htr] at hok
    · simp [htr, hru, hup, hrs] at hok

theorem runnerInner_flags (env : Env) (req : TranscribeRequest)
    (s : RunState) :
    (runnerInner env req s).1.fileBytes =
      (acquireAudio env req s).1.fileBytes ∧
    (runnerInner env req s).1.wroteFromBase64 =
      (acquireAudio env req s).1.wroteFromBase64 ∧
    (runnerInner env req s).1.downloadAttempted =
      (acquireAudio env req s).1.downloadAttempted := by
  unfold runnerInner
  rcases hacq : acquireAudio env req s with ⟨s2, r⟩
  simp only [hacq]
  cases r with
  | error e => simp
  | ok u =>
    rcases htr : env.transcribeRun with e | r0
    · simp [htr, setStatus]
    · cases hru : pyTruthy req.result_url
      · simp [htr, hru, setStatus]
      · rcases hup : env.uploadOutcome with e | code
        · simp [htr, hru, hup, setStatus]
        · rcases hrs : raise_for_status code with e | u2 <;>
            simp [htr, hru, hup, hrs, setStatus]

theorem acquire_base64 (env : Env) (req : TranscribeRequest)
    (s : RunState) (hb : pyTruthy req.audio_base64 = true) :
    (acquireAudio env req s).1.downloadAttempted = s.downloadAttempted ∧
    (∀ bytes, env.b64decode (req.audio_base64.getD ("")) =
        Except.ok bytes →
      (acquireAudio env req s).1.fileBytes = some bytes ∧
      (acquireAudio env req s).1.wroteFromBase64 = true) := by
  unfold acquireAudio updJob
  rcases hdec : env.b64decode (req.audio_base64.getD ("")) with e | bytes <;>
    simp [hb, hdec]

theorem process_error_spec (env : Env) (req : TranscribeRequest)
    (job : Job) (e : String)
    (herr : (runnerInner env req (runnerStart env req job)).2 =
      Except.error e) :
    (process_transcription_async env req job).job.status = Status.failed ∧
    (process_transcription_async env req job).job.error = some e ∧
    (process_transcription_async env req job).job.failed_at =
      some (env.now2 ++ ("Z")) := by
  unfold process_transcription_async
  rcases hI : runnerInner env req (runnerStart env req job) with ⟨s, r⟩
  rw [hI] at herr
  simp only at herr
  subst herr
  simp [setStatus]

theorem process_ok_job (env : Env) (req : TranscribeRequest) (job : Job)
    (hok : (runnerInner env req (runnerStart env req job)).2 =
      Except.ok ()) :
    (process_transcription_async env req job).job =
      (runnerInner env req (runnerStart env req job)).1.job := by
  unfold process_transcription_async
  rcases hI : runnerInner env req (runnerStart env req job) with ⟨s, r⟩
  rw [hI] at hok
  simp only at hok
  subst hok
  simp

theorem process_flags (env : Env) (req : TranscribeRequest) (job : Job) :
    (process_transcription_async env req job).tempDeleted = true ∧
    (process_transcription_async env req job).gcCalled = true ∧
    (process_transcription_async env req job).fileBytes =
      (runnerInner env req (runnerStart env req job)).1.fileBytes ∧
    (process_transcription_async env req job).wroteFromBase64 =
      (runnerInner env req (runnerStart env req job)).1.wroteFromBase64 ∧
    (process_transcription_async env req job).downloadAttempted =
      (runnerInner env req (runnerStart env req job)).1.downloadAttempted ∧
    (process_transcription_async env req job).uploadCalls =
      (runnerInner env req (runnerStart env req job)).1.uploadCalls := by
  unfold process_transcription_async
  rcases hI : runnerInner env req (runnerStart env req job) with ⟨s, r⟩
  cases r <;> simp [setStatus]

/-! ### Helper lemmas about the synchronous endpoint -/

theorem transcribe_validation (env : Env) (req : TranscribeRequest)
    (id : String) (h1 : pyTruthy req.audio_base64 = false)
    (h2 : pyTruthy req.audio_url = false) :
    transcribe env req id =
      { response := SyncResponse.httpError 400
          ("Must provide audio_base64 or audio_url") } := by
  unfold transcribe
  simp [h1, h2]

theorem transcribe_async_accept (env : Env) (req : TranscribeRequest)
    (id : String)
    (hv : pyTruthy req.audio_base64 = true ∨ pyTruthy req.audio_url = true)
    (ha : req.async_mode = true) :
    (transcribe env req id).response = SyncResponse.asyncAccepted id
      (("queued"))
      ("Job queued for processing. Poll /status/\x7bjob_id\x7d for progress.") ∧
    (transcribe env req id).jobCreated = true ∧
    (transcribe env req id).spawnedRunner = true := by
  unfold transcribe
  have hcond : (!(pyTruthy req.audio_base64) && !(pyTruthy req.audio_url))
      = false := by
    rcases hv with h | h <;> simp [h]
  simp [hcond, ha]

theorem transcribe_sync (env : Env) (req : TranscribeRequest)
    (id : String)
    (hv : pyTruthy req.audio_base64 = true ∨ pyTruthy req.audio_url = true)
    (ha : req.async_mode = false) :
    (transcribe env req id).response =
      (match (syncInner env req).2 with
        | Except.ok resp => resp
        | Except.error (PyExn.httpExn c d) => SyncResponse.httpError c d
        | Except.error (PyExn.requestExn e) =>
          SyncResponse.httpError 502 (("HTTP error: ") ++ e)
        | Except.error (PyExn.otherExn e) =>
          SyncResponse.httpError 500 e) ∧
    (transcribe env req id).uploadCalls =
      (syncInner env req).1.uploadCalls ∧
    (transcribe env req id).tempCreated = true ∧
    (transcribe env req id).tempDeleted = true ∧
    (transcribe env req id).gcCalled = true ∧
    (transcribe env req id).downloadAttempted =
      (syncInner env req).1.downloadAttempted ∧
    (transcribe env req id).fileBytes = (syncInner env req).1.fileBytes ∧
    (transcribe env req id).wroteFromBase64 =
      (syncInner env req).1.wroteFromBase64 ∧
    (transcribe env req id).jobCreated = false := by
  unfold transcribe
  have hcond : (!(pyTruthy req.audio_base64) && !(pyTruthy req.audio_url))
      = false := by
    rcases hv with h | h <;> simp [h]
  rcases hS : syncInner env req with ⟨fl, r⟩
  cases r with
  | error ex => cases ex <;> simp [hcond, ha]
  | ok resp => simp [hcond, ha]

theorem syncInner_ok_spec (env : Env) (req : TranscribeRequest)
    (r0 : TranscriptionResult) (htr : env.transcribeRun = Except.ok r0)
    (hru : pyTruthy req.result_url = true) (fl : SyncFlags)
    (resp : SyncResponse) (h : syncInner env req = (fl, Except.ok resp)) :
    resp = SyncResponse.summary ("ok") ("Transcription uploaded to S3")
      r0.segments.length (r0.speakers.getD []).length
      (round2 (durationOf r0.segments)) (round2 env.elapsed)
      (round2 env.totalElapsed) ∧
    fl.uploadCalls =
      [{ url := req.result_url.getD (""),
         body := { r0 with
           processing_time_seconds := some (round2 env.elapsed) },
         contentType := ("application/json") }] := by
  unfold syncInner at h
  cases hb : pyTruthy req.audio_base64
  · rcases hd : env.downloadOutcome with e | dcode
    · simp [hb, hd] at h
    · rcases hdr : raise_for_status dcode with e | u
      · simp [hb, hd, hdr] at h
      · rcases hup : env.uploadOutcome with e | code
        · simp [hb, hd, hdr, htr, hru, hup] at h
        · rcases hrs : raise_for_status code with e | u2
          · simp [hb, hd, hdr, htr, hru, hup, hrs] at h
          · simp [hb, hd, hdr, htr, hru, hup, hrs, Prod.ext_iff] at h
            obtain ⟨hfl, hresp⟩ := h
            subst hfl
            simp [hresp.symm]
  · rcases hdec : env.b64decode (req.audio_base64.getD ("")) with e | bytes
    · simp [hb, hdec] at h
    · rcases hup : env.uploadOutcome with e | code
      · simp [hb, hdec, htr, hru, hup] at h
      · rcases hrs : raise_for_status code with e | u2
        · simp [hb, hdec, htr, hru, hup, hrs] at h
        · simp [hb, hdec, htr, hru, hup, hrs, Prod.ext_iff] at h
          obtain ⟨hfl, hresp⟩ := h
          subst hfl
          simp [hresp.symm]

theorem syncInner_upload_4xx (env : Env) (req : TranscribeRequest)
    (code : Nat) (hru : pyTruthy req.result_url = true)
    (hup : env.uploadOutcome = Except.ok code) (h4 : 400 ≤ code)
    (h6 : code < 600) (fl : SyncFlags) (resp : SyncResponse) :
    syncInner env req ≠ (fl, Except.ok resp) := by
  intro h
  have hrs : raise_for_status code =
      Except.error (("HTTP Error ") ++ toString code) := by
    simp [raise_for_status, h4, h6]
  unfold syncInner at h
  cases hb : pyTruthy req.audio_base64
  · rcases hd : env.downloadOutcome with e | dcode
    · simp [hb, hd] at h
    · rcases hdr : raise_for_status dcode with e | u
      · simp [hb, hd, hdr] at h
      · rcases htr : env.transcribeRun with e | r0
        · simp [hb, hd, hdr, htr] at h
        · simp [hb, hd, hdr, htr, hru, hup, hrs] at h
  · rcases hdec : env.b64decode (req.audio_base64.getD ("")) with e | bytes
    · simp [hb, hdec] at h
    · rcases htr : env.transcribeRun with e | r0
      · simp [hb, hdec, htr] at h
      · simp [hb, hdec, htr, hru, hup, hrs] at h

theorem syncInner_base64 (env : Env) (req : TranscribeRequest)
    (hb : pyTruthy req.audio_base64 = true) :
    (syncInner env req).1.downloadAttempted = false ∧
    (∀ bytes, env.b64decode (req.audio_base64.getD ("")) =
        Except.ok bytes →
      (syncInner env req).1.fileBytes = some bytes ∧
      (syncInner env req).1.wroteFromBase64 = true) := by
  unfold syncInner
  rcases hdec : env.b64decode (req.audio_base64.getD ("")) with e | bytes
  · simp [hb, hdec]
  · rcases htr : env.transcribeRun with e | r0
    · simp [hb, hdec, htr]
    · cases hru : pyTruthy req.result_url
      · simp [hb, hdec, htr, hru]
      · rcases hup : env.uploadOutcome with e | code
        · simp [hb, hdec, htr, hru, hup]
        · rcases hrs : raise_for_status code with e | u <;>
            simp [hb, hdec, htr, hru, hup, hrs]

theorem round2_zero : round2 0 = 0 := by norm_num [round2]

/-! ### Concrete fixtures used by witnesses and counterexamples -/

/-- A transcriber result with no segments and no speakers. -/
def okResult : TranscriptionResult := { language := ("en") }

/-- An environment in which every external operation succeeds. -/
def envAllOK : Env :=
  { b64decode := (fun _ => Except.ok [82, 73, 70, 70]),
    downloadOutcome := Except.ok 200,
    transcribeRun := Except.ok okResult,
    uploadOutcome := Except.ok 200,
    now1 := ("2025-01-01T00:00:00"),
    now2 := ("2025-01-01T00:01:00") }

/-- Same, but base64 decoding raises. -/
def envDecodeFail : Env :=
  { envAllOK with
    b64decode := (fun _ => Except.error ("Invalid base64-encoded string")) }

/-- Same, but the Transcriber raises. -/
def envTransFail : Env :=
  { envAllOK with transcribeRun := Except.error ("CUDA out of memory") }

/-- Same, but the result PUT comes back 403. -/
def envUpload403 : Env := { envAllOK with uploadOutcome := Except.ok 403 }

/-- Same, but the result PUT comes back with a 302 redirect. -/
def envUpload302 : Env := { envAllOK with uploadOutcome := Except.ok 302 }

/-- A segment whose end timestamp does not survive rounding to two decimal
places. -/
def seg336 : Segment := { start := 0, end_ := (336 : ℚ)/1000 }

/-- A transcriber result ending at 0.336 seconds. -/
def result336 : TranscriptionResult :=
  { segments := [seg336], language := ("en") }

/-- Environment whose transcription ends at 0.336 seconds. -/
def envEnd336 : Env :=
  { envAllOK with transcribeRun := Except.ok result336 }

/-- An async submission with an inline payload only. -/
def reqB64 : TranscribeRequest := { audio_base64 := some ("QUJD") }

/-- An async submission with an inline payload and a result upload URL. -/
def reqB64Up : TranscribeRequest :=
  { audio_base64 := some ("QUJD"),
    result_url := some ("https://bucket.s3.amazonaws.com/result.json") }

/-- A submission carrying both audio sources at once. -/
def reqBoth : TranscribeRequest :=
  { audio_base64 := some ("QUJD"),
    audio_url := some ("https://bucket.s3.amazonaws.com/audio.mp3") }

/-- Synchronous variant of reqB64. -/
def reqSyncB64 : TranscribeRequest := { reqB64 with async_mode := false }

/-- Synchronous variant of reqB64Up. -/
def reqSyncUp : TranscribeRequest := { reqB64Up with async_mode := false }

/-- Synchronous variant of reqBoth. -/
def reqSyncBoth : TranscribeRequest := { reqBoth with async_mode := false }

/-! ### Claim theorems -/

/-- C1: for every async job, any exception raised during audio
acquisition, transcription, or result upload is caught by the background
runner and never propagates to the scheduler: the job record is updated
with status failed, its error field set to the exception's message, and
failed_at set to the current UTC timestamp (and in every case the runner
ends in a terminal status rather than throwing). -/
theorem C1_async_errors_captured :
    (∀ (env : Env) (req : TranscribeRequest) (job : Job) (e : String),
      (runnerInner env req (runnerStart env req job)).2 = Except.error e →
      (process_transcription_async env req job).job.status =
        Status.failed ∧
      (process_transcription_async env req job).job.error = some e ∧
      (process_transcription_async env req job).job.failed_at =
        some (env.now2 ++ ("Z"))) ∧
    (∀ (env : Env) (req : TranscribeRequest) (job : Job),
      (process_transcription_async env req job).job.status =
        Status.completed ∨
      (process_transcription_async env req job).job.status =
        Status.failed) := by
  constructor
  · intro env req job e herr
    exact process_error_spec env req job e herr
  · intro env req job
    rcases hr : (runnerInner env req (runnerStart env req job)).2 with e | u
    · right
      exact (process_error_spec env req job e hr).1
    · left
      cases u
      obtain ⟨r0, htr⟩ := runnerInner_ok_transcribe env req _ hr
      have hj := process_ok_job env req job hr
      rw [hj]
      exact (runnerInner_ok_spec env req _ r0 htr hr).1

/-- Witness for C1 at a concrete failing transcription. -/
theorem C1_witness :
    (runnerInner envTransFail reqB64
        (runnerStart envTransFail reqB64 (create_job ("j")))).2 =
      Except.error ("CUDA out of memory") ∧
    ((process_transcription_async envTransFail reqB64
        (create_job ("j"))).job.status = Status.failed ∧
      (process_transcription_async envTransFail reqB64
        (create_job ("j"))).job.error = some ("CUDA out of memory") ∧
      (process_transcription_async envTransFail reqB64
        (create_job ("j"))).job.failed_at =
        some (envTransFail.now2 ++ ("Z"))) :=
  ⟨rfl, C1_async_errors_captured.1 envTransFail reqB64 (create_job ("j"))
    ("CUDA out of memory") rfl⟩

/-- C2: the status of a job only moves along the edges queued →
downloading → processing → (uploading) → completed, with failed reachable
from the non-terminal states; every run ends in a terminal status and no
terminal status is ever followed by another update.  The four concrete
traces realise the failure edge from downloading, processing and
uploading, and the full success path. -/
theorem C2_status_state_machine :
    (∀ (env : Env) (req : TranscribeRequest) (id : String),
      chainOK (runnerTrace env req id) = true ∧
      noEarlyTerminal (runnerTrace env req id) = true ∧
      (runnerTrace env req id).getLast?.map isTerminal = some true) ∧
    runnerTrace envDecodeFail reqB64 ("j1") =
      [Status.queued, Status.downloading, Status.failed] ∧
    runnerTrace envTransFail reqB64 ("j2") =
      [Status.queued, Status.downloading, Status.processing,
       Status.failed] ∧
    runnerTrace envUpload403 reqB64Up ("j3") =
      [Status.queued, Status.downloading, Status.processing,
       Status.uploading, Status.failed] ∧
    runnerTrace envAllOK reqB64Up ("j4") =
      [Status.queued, Status.downloading, Status.processing,
       Status.uploading, Status.completed] := by
  refine ⟨?_, rfl, rfl, rfl, rfl⟩
  intro env req id
  rcases runner_trace_concrete env req id with h | h | h | h | h <;>
    rw [h] <;> decide

/-- Counterexample to C3: a request carrying both audio sources is not
rejected — the default async submission accepts it and creates a job. -/
theorem C3_counterexample :
    reqBoth.audio_base64 = some ("QUJD") ∧
    reqBoth.audio_url = some ("https://bucket.s3.amazonaws.com/audio.mp3") ∧
    (transcribe envAllOK reqBoth ("job-1")).response =
      SyncResponse.asyncAccepted ("job-1") ("queued")
        ("Job queued for processing. Poll /status/\x7bjob_id\x7d for progress.") ∧
    (transcribe envAllOK reqBoth ("job-1")).jobCreated = true :=
  ⟨rfl, rfl, rfl, rfl⟩

/-- C3 as amended: a request in which neither source is truthy is
rejected with a 400 client error before any job is created, and that is
the only submission the exactly-one-source validation rejects — a request
with both sources set is accepted (the async default returns a job id and
creates a job). -/
theorem C3_amended_validation :
    (∀ (env : Env) (req : TranscribeRequest) (id : String),
      pyTruthy req.audio_base64 = false → pyTruthy req.audio_url = false →
      transcribe env req id =
        { response := SyncResponse.httpError 400
            ("Must provide audio_base64 or audio_url") }) ∧
    (∀ (env : Env) (req : TranscribeRequest) (id : String),
      pyTruthy req.audio_base64 = true → pyTruthy req.audio_url = true →
      req.async_mode = true →
      (transcribe env req id).response = SyncResponse.asyncAccepted id
        ("queued")
        ("Job queued for processing. Poll /status/\x7bjob_id\x7d for progress.") ∧
      (transcribe env req id).jobCreated = true) := by
  constructor
  · intro env req id h1 h2
    exact transcribe_validation env req id h1 h2
  · intro env req id h1 h2 ha
    have h := transcribe_async_accept env req id (Or.inl h1) ha
    exact ⟨h.1, h.2.1⟩

/-- Witness for C3: the empty request is rejected without a job; the
both-sources request is accepted with one. -/
theorem C3_witness :
    (pyTruthy ({} : TranscribeRequest).audio_base64 = false ∧
      pyTruthy ({} : TranscribeRequest).audio_url = false ∧
      transcribe envAllOK ({} : TranscribeRequest) ("j0") =
        { response := SyncResponse.httpError 400
            ("Must provide audio_base64 or audio_url") }) ∧
    (pyTruthy reqBoth.audio_base64 = true ∧
      pyTruthy reqBoth.audio_url = true ∧ reqBoth.async_mode = true ∧
      ((transcribe envAllOK reqBoth ("j1")).response =
          SyncResponse.asyncAccepted ("j1") ("queued")
            ("Job queued for processing. Poll /status/\x7bjob_id\x7d for progress.") ∧
        (transcribe envAllOK reqBoth ("j1")).jobCreated = true)) :=
  ⟨⟨rfl, rfl,
      C3_amended_validation.1 envAllOK ({} : TranscribeRequest) ("j0")
        rfl rfl⟩,
    ⟨rfl, rfl, rfl,
      C3_amended_validation.2 envAllOK reqBoth ("j1") rfl rfl rfl⟩⟩

/-- C4: on every exit path of a job — success, transcription failure,
download failure, upload failure — the scoped temporary audio file is
deleted and a garbage-collection pass is forced before the runner exits,
in the async runner and in the synchronous endpoint alike. -/
theorem C4_cleanup_on_every_path :
    (∀ (env : Env) (req : TranscribeRequest) (job : Job),
      (process_transcription_async env req job).tempDeleted = true ∧
      (process_transcription_async env req job).gcCalled = true) ∧
    (∀ (env : Env) (req : TranscribeRequest) (id : String),
      pyTruthy req.audio_base64 = true ∨ pyTruthy req.audio_url = true →
      req.async_mode = false →
      (transcribe env req id).tempDeleted = true ∧
      (transcribe env req id).gcCalled = true) := by
  constructor
  · intro env req job
    exact ⟨(process_flags env req job).1, (process_flags env req job).2.1⟩
  · intro env req id hv ha
    have h := transcribe_sync env req id hv ha
    exact ⟨h.2.2.2.1, h.2.2.2.2.1⟩

/-- Witness for C4: cleanup observed on a failing async run and on a
failing synchronous run. -/
theorem C4_witness :
    ((process_transcription_async envTransFail reqB64
        (create_job ("j"))).tempDeleted = true ∧
      (process_transcription_async envTransFail reqB64
        (create_job ("j"))).gcCalled = true) ∧
    ((pyTruthy reqSyncB64.audio_base64 = true ∨
        pyTruthy reqSyncB64.audio_url = true) ∧
      reqSyncB64.async_mode = false ∧
      ((transcribe envTransFail reqSyncB64 ("j")).tempDeleted = true ∧
        (transcribe envTransFail reqSyncB64 ("j")).gcCalled = true)) :=
  ⟨C4_cleanup_on_every_path.1 envTransFail reqB64 (create_job ("j")),
    ⟨Or.inl rfl, rfl,
      C4_cleanup_on_every_path.2 envTransFail reqSyncB64 ("j")
        (Or.inl rfl) rfl⟩⟩

/-- C5: every status read first runs eviction; a terminal record whose
parseable terminal timestamp is older than the one-hour retention window
is removed, a younger one remains, a record whose timestamp fails to
parse is skipped and left in place, and an id absent after eviction gives
a 404. -/
theorem C5_eviction_on_status_read :
    (∀ (fromisoformat : String → Option ℚ) (now : ℚ)
        (jobs : List (String × Job)) (jid : String) (j : Job)
        (ts : String) (dt : ℚ),
      isTerminal j.status = true →
      pyOr j.completed_at j.failed_at = some ts → ts ≠ ("") →
      fromisoformat (rstripZ ts) = some dt →
      now - dt > JOB_RETENTION_SECONDS →
      (jid, j) ∉ cleanup_old_jobs fromisoformat now jobs) ∧
    (∀ (fromisoformat : String → Option ℚ) (now : ℚ)
        (jobs : List (String × Job)) (jid : String) (j : Job)
        (ts : String) (dt : ℚ),
      pyOr j.completed_at j.failed_at = some ts →
      fromisoformat (rstripZ ts) = some dt →
      ¬(now - dt > JOB_RETENTION_SECONDS) →
      ((jid, j) ∈ cleanup_old_jobs fromisoformat now jobs ↔
        (jid, j) ∈ jobs)) ∧
    (∀ (fromisoformat : String → Option ℚ) (now : ℚ)
        (jobs : List (String × Job)) (jid : String) (j : Job)
        (ts : String),
      pyOr j.completed_at j.failed_at = some ts →
      fromisoformat (rstripZ ts) = none →
      ((jid, j) ∈ cleanup_old_jobs fromisoformat now jobs ↔
        (jid, j) ∈ jobs)) ∧
    (∀ (fromisoformat : String → Option ℚ) (now : ℚ)
        (jobs : List (String × Job)) (q : String),
      (get_status fromisoformat now jobs q).1 =
        cleanup_old_jobs fromisoformat now jobs ∧
      (lookupJob (cleanup_old_jobs fromisoformat now jobs) q = none →
        (get_status fromisoformat now jobs q).2 =
          StatusReadResult.notFound 404
            ((("Job ") ++ q) ++ (" not found")))) := by
  refine ⟨?_, ?_, ?_, ?_⟩
  · intro fromiso now jobs jid j ts dt hterm hor hts hparse hage hin
    rw [cleanup_old_jobs, List.mem_filter] at hin
    have hse : shouldEvict fromiso now j = true := by
      simp [shouldEvict, hterm, hor, pyTruthy, hts, hparse, hage]
    rw [hse] at hin
    simp at hin
  · intro fromiso now jobs jid j ts dt hor hparse hage
    have hse : shouldEvict fromiso now j = false := by
      cases hterm : isTerminal j.status
      · simp [shouldEvict, hterm]
      · by_cases hts : ts = ("")
        · simp [shouldEvict, hterm, hor, pyTruthy, hts]
        · simp [shouldEvict, hterm, hor, pyTruthy, hts, hparse, hage]
    rw [cleanup_old_jobs, List.mem_filter, hse]
    simp
  · intro fromiso now jobs jid j ts hor hparse
    have hse : shouldEvict fromiso now j = false := by
      cases hterm : isTerminal j.status
      · simp [shouldEvict, hterm]
      · by_cases hts : ts = ("")
        · simp [shouldEvict, hterm, hor, pyTruthy, hts]
        · simp [shouldEvict, hterm, hor, pyTruthy, hts, hparse]
    rw [cleanup_old_jobs, List.mem_filter, hse]
    simp
  · intro fromiso now jobs q
    constructor
    · unfold get_status
      rcases hL : lookupJob (cleanup_old_jobs fromiso now jobs) q with _ | job <;>
        simp [hL]
    · intro hL
      simp [get_status, hL]

/-- A completed job whose terminal timestamp is the fixture string tZ. -/
def jobStale : Job :=
  { job_id := ("a"), status := Status.completed,
    completed_at := some ("tZ") }

/-- A parse function mapping the fixture timestamp t to the epoch. -/
def parse0 : String → Option ℚ :=
  fun s => if s = ("t") then some 0 else none

/-- Witness for C5: the stale fixture job is evicted from a singleton
registry. -/
theorem C5_witness :
    isTerminal jobStale.status = true ∧
    pyOr jobStale.completed_at jobStale.failed_at = some ("tZ") ∧
    (("tZ") : String) ≠ ("") ∧
    parse0 (rstripZ ("tZ")) = some 0 ∧
    (4000 : ℚ) - 0 > JOB_RETENTION_SECONDS ∧
    (("a"), jobStale) ∉
      cleanup_old_jobs parse0 4000 [((("a")), jobStale)] :=
  ⟨rfl, rfl, by decide, rfl, by norm_num [JOB_RETENTION_SECONDS],
    C5_eviction_on_status_read.1 parse0 4000 [((("a")), jobStale)]
      ("a") jobStale ("tZ") 0 rfl rfl (by decide) rfl
      (by norm_num [JOB_RETENTION_SECONDS])⟩

/-- Counterexample to C6: the result PUT answers 302 — not a 2xx — yet
the synchronous call succeeds with the summary, because
raise_for_status only raises for 4xx/5xx. -/
theorem C6_counterexample :
    ¬(200 ≤ 302 ∧ 302 < 300) ∧
    envUpload302.uploadOutcome = Except.ok 302 ∧
    (transcribe envUpload302 reqSyncUp ("j")).response =
      SyncResponse.summary ("ok") ("Transcription uploaded to S3") 0 0
        (round2 0) (round2 0) (round2 0) ∧
    round2 0 = 0 :=
  ⟨by norm_num, rfl, rfl, round2_zero⟩

/-- C6 as amended: with a result_url supplied, the full enriched result
is the body of exactly one PUT to that URL with content type
application/json, the caller (or the async job record) receives only the
compact summary, and an upload answered with a 4xx or 5xx status is a
failure (a 1xx/3xx response is not treated as an error by
raise_for_status). -/
theorem C6_upload_delivery :
    (∀ (env : Env) (req : TranscribeRequest) (id : String)
        (r0 : TranscriptionResult) (fl : SyncFlags)
        (resp : SyncResponse),
      env.transcribeRun = Except.ok r0 →
      pyTruthy req.result_url = true →
      pyTruthy req.audio_base64 = true ∨ pyTruthy req.audio_url = true →
      req.async_mode = false →
      syncInner env req = (fl, Except.ok resp) →
      (transcribe env req id).response = SyncResponse.summary ("ok")
        ("Transcription uploaded to S3") r0.segments.length
        (r0.speakers.getD []).length (round2 (durationOf r0.segments))
        (round2 env.elapsed) (round2 env.totalElapsed) ∧
      (transcribe env req id).uploadCalls =
        [{ url := req.result_url.getD (""),
           body := { r0 with
             processing_time_seconds := some (round2 env.elapsed) },
           contentType := ("application/json") }] ∧
      (∀ rr, (transcribe env req id).response ≠
        SyncResponse.fullResult rr)) ∧
    (∀ (env : Env) (req : TranscribeRequest) (job : Job)
        (r0 : TranscriptionResult),
      env.transcribeRun = Except.ok r0 →
      pyTruthy req.result_url = true →
      (runnerInner env req (runnerStart env req job)).2 = Except.ok () →
      (process_transcription_async env req job).uploadCalls =
        [{ url := req.result_url.getD (""),
           body := { r0 with
             processing_time_seconds := some (round2 env.elapsed) },
           contentType := ("application/json") }] ∧
      (process_transcription_async env req job).job.status =
        Status.completed) ∧
    (∀ (env : Env) (req : TranscribeRequest) (code : Nat)
        (fl : SyncFlags) (resp : SyncResponse),
      pyTruthy req.result_url = true →
      env.uploadOutcome = Except.ok code → 400 ≤ code → code < 600 →
      syncInner env req ≠ (fl, Except.ok resp)) ∧
    (∀ (env : Env) (req : TranscribeRequest) (s : RunState) (code : Nat),
      pyTruthy req.result_url = true →
      env.uploadOutcome = Except.ok code → 400 ≤ code → code < 600 →
      (runnerInner env req s).2 ≠ Except.ok ()) := by
  refine ⟨?_, ?_, ?_, ?_⟩
  · intro env req id r0 fl resp htr hru hv ha hsync
    have hs := syncInner_ok_spec env req r0 htr hru fl resp hsync
    have hg := transcribe_sync env req id hv ha
    have hresp : (transcribe env req id).response = resp := by
      rw [hg.1, hsync]
    refine ⟨?_, ?_, ?_⟩
    · rw [hresp, hs.1]
    · rw [hg.2.1, hsync]
      exact hs.2
    · intro rr
      rw [hresp, hs.1]
      simp
  · intro env req job r0 htr hru hok
    have hspec := runnerInner_ok_spec env req (runnerStart env req job)
      r0 htr hok
    have hcalls := hspec.2.2.2.2.2.2.1 hru
    have hstart : (runnerStart env req job).uploadCalls = [] := rfl
    constructor
    · rw [(process_flags env req job).2.2.2.2.2, hcalls, hstart]
      simp
    · rw [process_ok_job env req job hok]
      exact hspec.1
  · intro env req code fl resp hru hup h4 h6
    exact syncInner_upload_4xx env req code hru hup h4 h6 fl resp
  · intro env req s code hru hup h4 h6
    exact runnerInner_upload_4xx env req s code hru hup h4 h6

/-- Witness for C6 at a concrete 403 upload: the async runner does not
succeed. -/
theorem C6_witness :
    pyTruthy reqB64Up.result_url = true ∧
    envUpload403.uploadOutcome = Except.ok 403 ∧
    400 ≤ 403 ∧ 403 < 600 ∧
    (runnerInner envUpload403 reqB64Up
        (runnerStart envUpload403 reqB64Up (create_job ("j")))).2 ≠
      Except.ok () :=
  ⟨rfl, rfl, by norm_num, by norm_num,
    C6_upload_delivery.2.2.2 envUpload403 reqB64Up
      (runnerStart envUpload403 reqB64Up (create_job ("j"))) 403 rfl rfl
      (by norm_num) (by norm_num)⟩

/-- Counterexample to C7: the claimed procedure (strip the query string,
then suffix-match) is not what the serverless handler does — on a URL
whose only extension-like text sits in the query string, handler.py
infers .mp3 where the claimed procedure yields .wav. -/
theorem C7_counterexample :
    infer_ext_serverless (("https://host/download?file=.mp3").data) =
      (".mp3").data ∧
    claimInferExt (("https://host/download?file=.mp3").data) =
      (".wav").data := by
  constructor <;> decide

/-- C7 as amended: in the pod handler (async and sync paths run the same
snippet) the extension is inferred exactly as the claim states — strip
the query string, suffix-match against the allow-list, default .wav —
and the sample URL yields .mp3; the serverless handler of handler.py
instead substring-matches the whole lowercased URL, query included,
against a list without .webm. -/
theorem C7_extension_inference :
    (∀ url, infer_ext_pod url = claimInferExt url) ∧
    infer_ext_pod
      (("https://bucket.s3.amazonaws.com/path/file.mp3?sig=abc123").data) =
      (".mp3").data ∧
    infer_ext_pod (("https://host/audio.webm").data) = (".webm").data ∧
    infer_ext_pod (("https://host/audio.xyz").data) = (".wav").data ∧
    infer_ext_serverless (("https://host/audio.webm").data) =
      (".wav").data := by
  refine ⟨fun url => rfl, ?_, ?_, ?_, ?_⟩ <;> decide

/-- Counterexample to C8: a job completes with a last segment ending at
0.336 s, but the reported duration_seconds is the rounded 0.34, not the
raw end timestamp. -/
theorem C8_counterexample :
    (process_transcription_async envEnd336 reqB64
        (create_job ("j"))).job.status = Status.completed ∧
    durationOf result336.segments = (336 : ℚ)/1000 ∧
    (process_transcription_async envEnd336 reqB64
        (create_job ("j"))).job.duration_seconds ≠ (336 : ℚ)/1000 := by
  refine ⟨rfl, by norm_num [durationOf, result336, seg336], ?_⟩
  have h : (process_transcription_async envEnd336 reqB64
      (create_job ("j"))).job.duration_seconds =
      round2 ((336 : ℚ)/1000) := rfl
  rw [h]
  norm_num [round2, round_eq]

/-- C8 as amended: for every completed async job and every successful
synchronous delivery with a result_url, the reported duration_seconds is
the end timestamp of the last segment rounded to two decimal places, and
0 when the segment list is empty. -/
theorem C8_duration_reporting :
    (∀ (env : Env) (req : TranscribeRequest) (job : Job)
        (r0 : TranscriptionResult),
      env.transcribeRun = Except.ok r0 →
      (process_transcription_async env req job).job.status =
        Status.completed →
      (process_transcription_async env req job).job.duration_seconds =
        round2 (durationOf r0.segments) ∧
      (r0.segments = [] →
        (process_transcription_async env req job).job.duration_seconds =
          0)) ∧
    (∀ (env : Env) (req : TranscribeRequest) (id : String)
        (r0 : TranscriptionResult) (fl : SyncFlags)
        (resp : SyncResponse),
      env.transcribeRun = Except.ok r0 →
      pyTruthy req.result_url = true →
      pyTruthy req.audio_base64 = true ∨ pyTruthy req.audio_url = true →
      req.async_mode = false →
      syncInner env req = (fl, Except.ok resp) →
      (transcribe env req id).response = SyncResponse.summary ("ok")
        ("Transcription uploaded to S3") r0.segments.length
        (r0.speakers.getD []).length (round2 (durationOf r0.segments))
        (round2 env.elapsed) (round2 env.totalElapsed)) := by
  constructor
  · intro env req job r0 htr hcomp
    rcases hr : (runnerInner env req (runnerStart env req job)).2
      with e | u
    · have := (process_error_spec env req job e hr).1
      rw [this] at hcomp
      cases hcomp
    · cases u
      have hspec := runnerInner_ok_spec env req (runnerStart env req job)
        r0 htr hr
      have hj := process_ok_job env req job hr
      constructor
      · rw [hj]
        exact hspec.2.1
      · intro hempty
        rw [hj, hspec.2.1, hempty]
        simpa [durationOf] using round2_zero
  · intro env req id r0 fl resp htr hru hv ha hsync
    have hs := syncInner_ok_spec env req r0 htr hru fl resp hsync
    have hg := transcribe_sync env req id hv ha
    rw [hg.1, hsync, hs.1]

/-- Witness for C8 at the 0.336-second fixture. -/
theorem C8_witness :
    envEnd336.transcribeRun = Except.ok result336 ∧
    (process_transcription_async envEnd336 reqB64
        (create_job ("j"))).job.status = Status.completed ∧
    ((process_transcription_async envEnd336 reqB64
        (create_job ("j"))).job.duration_seconds =
      round2 (durationOf result336.segments) ∧
      (result336.segments = [] →
        (process_transcription_async envEnd336 reqB64
          (create_job ("j"))).job.duration_seconds = 0)) :=
  ⟨rfl, rfl,
    C8_duration_reporting.1 envEnd336 reqB64 (create_job ("j"))
      result336 rfl rfl⟩

/-- C9: the speaker list extracted by the Transcriber is deduplicated
(each label appears exactly once) and sorted ascending, its members are
exactly the labels collected from segments and their words, and whenever
a speakers entry is present in the formatted output it is that extracted
list. -/
theorem C9_speakers_dedup_sorted :
    (∀ segments : List Segment,
      List.Sorted (· ≤ ·) (_extract_speakers segments) ∧
      (_extract_speakers segments).Nodup ∧
      (∀ s, s ∈ _extract_speakers segments ↔
        s ∈ speakerLabels segments)) ∧
    (∀ (diarizeRan : Bool) (segments : List Segment) (language : String),
      (transcribeOutput diarizeRan segments language).speakers = none ∨
      (transcribeOutput diarizeRan segments language).speakers =
        some (_extract_speakers segments)) := by
  constructor
  · intro segments
    refine ⟨List.sorted_mergeSort' _, ?_, ?_⟩
    · exact ((List.mergeSort_perm _ _).nodup_iff).2
        (List.nodup_dedup _)
    · intro s
      unfold _extract_speakers
      rw [(List.mergeSort_perm _ _).mem_iff, List.mem_dedup]
  · intro dr segments language
    cases dr
    · left
      rfl
    · cases hE : (_extract_speakers segments).isEmpty
      · right
        simp [transcribeOutput, hE]
      · left
        simp [transcribeOutput, hE]

/-- C10: when a request carries both an inline base64 payload and a URL,
both the async runner and the synchronous endpoint use the payload and
never attempt a download; the temporary file receives the decoded
bytes. -/
theorem C10_base64_wins_over_url :
    (∀ (env : Env) (req : TranscribeRequest) (job : Job) (b64 u : String),
      req.audio_base64 = some b64 → b64 ≠ ("") → req.audio_url = some u →
      (process_transcription_async env req job).downloadAttempted =
        false ∧
      (∀ bytes, env.b64decode b64 = Except.ok bytes →
        (process_transcription_async env req job).fileBytes =
          some bytes ∧
        (process_transcription_async env req job).wroteFromBase64 =
          true)) ∧
    (∀ (env : Env) (req : TranscribeRequest) (id : String)
        (b64 u : String),
      req.audio_base64 = some b64 → b64 ≠ ("") → req.audio_url = some u →
      req.async_mode = false →
      (transcribe env req id).downloadAttempted = false ∧
      (∀ bytes, env.b64decode b64 = Except.ok bytes →
        (transcribe env req id).fileBytes = some bytes ∧
        (transcribe env req id).wroteFromBase64 = true)) := by
  constructor
  · intro env req job b64 u hbase hne hurl
    have hb : pyTruthy req.audio_base64 = true := by
      rw [hbase]
      simp [pyTruthy, hne]
    have hgetD : req.audio_base64.getD ("") = b64 := by
      rw [hbase]
      rfl
    have hfl := runnerInner_flags env req (runnerStart env req job)
    have hacq := acquire_base64 env req (runnerStart env req job) hb
    have hpf := process_flags env req job
    constructor
    · rw [hpf.2.2.2.2.1, hfl.2.2, hacq.1]
      rfl
    · intro bytes hdec
      have hdec2 : env.b64decode (req.audio_base64.getD ("")) =
          Except.ok bytes := by
        rw [hgetD]
        exact hdec
      obtain ⟨hfb, hwb⟩ := hacq.2 bytes hdec2
      constructor
      · rw [hpf.2.2.1, hfl.1, hfb]
      · rw [hpf.2.2.2.1, hfl.2.1, hwb]
  · intro env req id b64 u hbase hne hurl ha
    have hb : pyTruthy req.audio_base64 = true := by
      rw [hbase]
      simp [pyTruthy, hne]
    have hgetD : req.audio_base64.getD ("") = b64 := by
      rw [hbase]
      rfl
    have hg := transcribe_sync env req id (Or.inl hb) ha
    have hsb := syncInner_base64 env req hb
    constructor
    · rw [hg.2.2.2.2.2.1, hsb.1]
    · intro bytes hdec
      have hdec2 : env.b64decode (req.audio_base64.getD ("")) =
          Except.ok bytes := by
        rw [hgetD]
        exact hdec
      obtain ⟨hfb, hwb⟩ := hsb.2 bytes hdec2
      constructor
      · rw [hg.2.2.2.2.2.2.1, hfb]
      · rw [hg.2.2.2.2.2.2.2.1, hwb]

/-- Witness for C10 on the both-sources fixtures, async and sync. -/
theorem C10_witness :
    (reqBoth.audio_base64 = some ("QUJD") ∧ (("QUJD") : String) ≠ ("") ∧
      reqBoth.audio_url =
        some ("https://bucket.s3.amazonaws.com/audio.mp3") ∧
      ((process_transcription_async envAllOK reqBoth
          (create_job ("j"))).downloadAttempted = false ∧
        (envAllOK.b64decode ("QUJD") = Except.ok [82, 73, 70, 70] →
          (process_transcription_async envAllOK reqBoth
            (create_job ("j"))).fileBytes = some [82, 73, 70, 70] ∧
          (process_transcription_async envAllOK reqBoth
            (create_job ("j"))).wroteFromBase64 = true))) ∧
    (reqSyncBoth.async_mode = false ∧
      (transcribe envAllOK reqSyncBoth ("j")).downloadAttempted = false ∧
      (envAllOK.b64decode ("QUJD") = Except.ok [82, 73, 70, 70] →
        (transcribe envAllOK reqSyncBoth ("j")).fileBytes =
          some [82, 73, 70, 70] ∧
        (transcribe envAllOK reqSyncBoth ("j")).wroteFromBase64 =
          true)) :=
  ⟨⟨rfl, by decide, rfl,
      (C10_base64_wins_over_url.1 envAllOK reqBoth (create_job ("j"))
          ("QUJD") ("https://bucket.s3.amazonaws.com/audio.mp3") rfl
          (by decide) rfl).1,
      fun h =>
        (C10_base64_wins_over_url.1 envAllOK reqBoth (create_job ("j"))
          ("QUJD") ("https://bucket.s3.amazonaws.com/audio.mp3") rfl
          (by decide) rfl).2 [82, 73, 70, 70] h⟩,
    ⟨rfl,
      (C10_base64_wins_over_url.2 envAllOK reqSyncBoth ("j") ("QUJD")
          ("https://bucket.s3.amazonaws.com/audio.mp3") rfl (by decide)
          rfl rfl).1,
      fun h =>
        (C10_base64_wins_over_url.2 envAllOK reqSyncBoth ("j") ("QUJD")
          ("https://bucket.s3.amazonaws.com/audio.mp3") rfl (by decide)
          rfl rfl).2 [82, 73, 70, 70] h⟩⟩

end WX
